import Mathlib

/-!
# Verification of `Magnum::ImGuiIntegration::Context`

A shallow embedding of the Dear ImGui integration bridge
(`src/Magnum/ImGuiIntegration/Context.h`).  The repository snapshot ships only
the header: the class declaration, inline accessors and the API documentation.
The out-of-line implementations (`Context.cpp`, `Context.hpp`) are not part of
the snapshot, so every operation whose body is missing is modelled from the
specification's description of it, as indicated in its doc comment.  Sizes and
scaling ratios are modelled over `ℚ` (the spec reasons about exact
component-wise ratios such as `F / W`); window and framebuffer sizes, which the
header types as `Vector2i`, are pairs of `ℤ`.
-/

namespace MagnumImGui

/-- 2D vector of rationals, embedding Magnum's `Vector2` (`Float` components in
the source, modelled exactly over `ℚ`). -/
structure Vec2 where
  x : ℚ
  y : ℚ
  deriving DecidableEq

/-- 2D vector of integers, embedding Magnum's `Vector2i`. -/
structure Vec2i where
  x : ℤ
  y : ℤ
  deriving DecidableEq

/-- Component-wise cast of a `Vector2i` to a `Vector2`, embedding the
`Vector2(windowSize)` conversions the header documents. -/
def Vec2i.toVec2 (v : Vec2i) : Vec2 := ⟨(v.x : ℚ), (v.y : ℚ)⟩

/-- Modelled from the spec (§4.2): a component-wise ratio `num / den` that is
"defined as 1 where the denominator component is 0" — the RelayoutEngine's
division-by-zero fallback. -/
def ratioOr1 (num den : ℚ) : ℚ := if den = 0 then 1 else num / den

/-- Modelled from the spec (§3, data model of `Context`): the observable state
of one `Context` instance.  `_context` is the owned runtime-context handle
(`ImGuiContext*`, nullable — `none` means empty/moved-from/released), named as
the source member.  `_supersamplingRatio` and `_eventScaling` are the two
value-held scaling vectors (source members of the same name).  `displaySize`
models the runtime's logical display-size state that every relayout updates.
`pixelDensity` is the pixel density most recently applied to the runtime's
glyph rasterization.  `atlasGeneration` models the font-atlas texture's
generation/version counter: it advances by one on every full font-atlas
rebuild/re-upload.  `clipboardConnected` records whether
`connectApplicationClipboard` has wired the clipboard callbacks, and
`_lastClipboardText` is the cached last-clipboard-text buffer (source member
of the same name). -/
structure ContextState where
  _context : Option Nat
  _supersamplingRatio : Vec2
  _eventScaling : Vec2
  displaySize : Vec2
  pixelDensity : ℚ
  atlasGeneration : Nat
  clipboardConnected : Bool
  _lastClipboardText : String
  deriving DecidableEq

/-- From the source (`Context.h:443`): `ImGuiContext* context() { return
_context; }` — the accessor returning the underlying runtime-context handle,
`none` for a NoCreate'd, moved-out or released instance. -/
def context (c : ContextState) : Option Nat := c._context

/-- Modelled from the spec (§4.1, missing `Context.cpp`): the
`Context(NoCreateT)` constructor — no runtime context, no GPU objects. -/
def noCreateContext : ContextState where
  _context := none
  _supersamplingRatio := ⟨0, 0⟩
  _eventScaling := ⟨0, 0⟩
  displaySize := ⟨0, 0⟩
  pixelDensity := 0
  atlasGeneration := 0
  clipboardConnected := false
  _lastClipboardText := ""

/-- Modelled from the spec (§4.2): the derived pixel density passed to the GUI
runtime for glyph rasterization scale — derived from the supersampling ratio
`F / W` (component-wise with the zero fallback), one scalar for the raster
scale. -/
def pixelDensityOf (windowSize framebufferSize : Vec2i) : ℚ :=
  max (ratioOr1 (framebufferSize.x : ℚ) (windowSize.x : ℚ))
    (ratioOr1 (framebufferSize.y : ℚ) (windowSize.y : ℚ))

/-- Modelled from the spec (§4.2 RelayoutEngine, missing `Context.cpp` body of
`Context::relayout(const Vector2&, const Vector2i&, const Vector2i&)`): stores
`supersamplingRatio = F / W` component-wise (1 where a `W` component is 0) and
`eventScaling = W / S` component-wise (1 where an `S` component is 0), always
updates the runtime's logical display-size state, and — only if the newly
derived pixel density differs from the previously applied one — performs the
full font-atlas rebuild and re-upload, advancing the atlas texture's
generation counter by one. -/
def relayout (size : Vec2) (windowSize framebufferSize : Vec2i)
    (c : ContextState) : ContextState :=
  let ss : Vec2 := ⟨ratioOr1 (framebufferSize.x : ℚ) (windowSize.x : ℚ),
    ratioOr1 (framebufferSize.y : ℚ) (windowSize.y : ℚ)⟩
  let es : Vec2 := ⟨ratioOr1 (windowSize.x : ℚ) size.x,
    ratioOr1 (windowSize.y : ℚ) size.y⟩
  let density := pixelDensityOf windowSize framebufferSize
  { c with
    _supersamplingRatio := ss
    _eventScaling := es
    displaySize := size
    pixelDensity := density
    atlasGeneration :=
      if density = c.pixelDensity then c.atlasGeneration
      else c.atlasGeneration + 1 }

/-- Modelled from the spec (§4.1, missing `Context.cpp` body of the
DPI-aware constructors): create (or adopt) the runtime context identified by
`handle`, make it current, perform the initial relayout, then the initial
font-atlas upload (the first atlas build, hence generation 1). -/
def construct (size : Vec2) (windowSize framebufferSize : Vec2i)
    (handle : Nat) : ContextState :=
  let c := relayout size windowSize framebufferSize
    { noCreateContext with _context := some handle }
  { c with atlasGeneration := 1 }

/-- Modelled from the spec (§4.1, missing `Context.cpp` body of
`Context::release()`): returns the owned handle and resets the internal
context pointer to null, making the instance equivalent to a moved-out
state. -/
def release (c : ContextState) : Option Nat × ContextState :=
  (c._context, { c with _context := none })

/-- Modelled from the spec (§4.1, missing `Context.cpp` body of
`Context::~Context()`): a no-op on an empty instance, otherwise makes the
context current and destroys it.  The result counts the
`ImGui::DestroyContext()` calls the destructor performs. -/
def destructDestroyCount (c : ContextState) : Nat :=
  if c._context.isSome then 1 else 0

/-- Modelled from the spec (§4.1, missing `Context.cpp` body of
`Context::operator=(Context&&)`, for two distinct instances): destroys the
target's prior runtime context first (if non-empty), transfers the source's
runtime-context handle and all resource state to the target, and leaves the
source empty.  The result is `(new target, new source, number of
DestroyContext calls on the target's prior context)`. -/
def moveAssign (target source : ContextState) :
    ContextState × ContextState × Nat :=
  (source, { source with _context := none },
    if target._context.isSome then 1 else 0)

/-- Modelled from the spec (§4.1): self-move-assignment — target and source
are the same instance, so no ownership changes hands and nothing is destroyed;
the instance stays valid.  The result is `(the instance afterwards, number of
DestroyContext calls)`. -/
def moveAssignSelf (c : ContextState) : ContextState × Nat := (c, 0)

/-- Modelled from the spec (§4.1, missing `Context.cpp` body of
`Context::Context(Context&&)`): the move constructor — transfers everything
from the source, which becomes empty; nothing is destroyed.  The result is
`(new instance, source afterwards)`. -/
def moveConstruct (source : ContextState) : ContextState × ContextState :=
  (source, { source with _context := none })

/-- Result of an adopting constructor call, modelled from the spec (§4.1, §7):
a precondition failure is a fatal assertion terminating the process, never a
recoverable error value — so the only outcomes are a constructed instance or
fatal termination. -/
inductive ConstructResult where
  | fatalAssert
  | ok (c : ContextState)
  deriving DecidableEq

/-- Modelled from the spec (§4.1, missing `Context.cpp` body of
`Context::Context(ImGuiContext&, const Vector2&, const Vector2i&, const
Vector2i&)`): adopting an existing runtime context requires that the handle is
not already owned by another live instance ("Expects that no instance is
created yet", `Context.h:375`); on violation the fatal assertion fires,
otherwise the instance takes exclusive ownership of `handle` and performs the
same initial relayout and font-atlas upload as the fresh-context
constructor. -/
def adoptContext (handle : Nat) (ownedElsewhere : Bool) (size : Vec2)
    (windowSize framebufferSize : Vec2i) : ConstructResult :=
  if ownedElsewhere then ConstructResult.fatalAssert
  else ConstructResult.ok (construct size windowSize framebufferSize handle)

/-- Modelled from the spec: the non-DPI-aware overloads
(`Context(const Vector2i&)`, `relayout(const Vector2i&)`) use a single size for
UI, window and framebuffer, so the three size spaces coincide: unit
supersampling ratio, unit event scaling, unit pixel density.  Stated directly
so the refinement against the DPI-aware triple overload is a theorem rather
than a definition. -/
def relayoutSingle (size : Vec2i) (c : ContextState) : ContextState :=
  { c with
    _supersamplingRatio := ⟨1, 1⟩
    _eventScaling := ⟨1, 1⟩
    displaySize := Vec2i.toVec2 size
    pixelDensity := 1
    atlasGeneration :=
      if (1 : ℚ) = c.pixelDensity then c.atlasGeneration
      else c.atlasGeneration + 1 }

/-- Modelled from the spec: the non-DPI-aware constructor
`Context(const Vector2i&)` — fresh runtime context with unit scaling ratios
and the initial font-atlas upload, stated directly (see `relayoutSingle`). -/
def constructSingle (size : Vec2i) (handle : Nat) : ContextState where
  _context := some handle
  _supersamplingRatio := ⟨1, 1⟩
  _eventScaling := ⟨1, 1⟩
  displaySize := Vec2i.toVec2 size
  pixelDensity := 1
  atlasGeneration := 1
  clipboardConnected := false
  _lastClipboardText := ""

/-- One entry of the GUI runtime's input-state queue, modelled from the spec
(§6, GUI runtime boundary): pointer positions and button transitions fed by
the EventAdapter. -/
inductive GuiInput where
  | mousePos (p : Vec2)
  | mouseButton (b : Nat) (pressed : Bool)
  deriving DecidableEq

/-- The GUI runtime's input-facing state, modelled from the spec (§6): the
input-state queue and the runtime-owned "wants mouse capture" flag (set by the
runtime's own layout logic, read — never written — by the EventAdapter). -/
structure GuiIO where
  queue : List GuiInput
  wantCaptureMouse : Bool
  deriving DecidableEq

/-- A host pointer press/release event, modelled from the spec (§6, host
application boundary): position and button accessors, the "is primary"
predicate, and the accepted flag the adapter may set. -/
structure PointerEventState where
  isPrimary : Bool
  position : Vec2
  button : Nat
  accepted : Bool
  deriving DecidableEq

/-- A host pointer move event (position accessor, "is primary" predicate,
accepted flag), modelled from the spec (§6). -/
structure PointerMoveEventState where
  isPrimary : Bool
  position : Vec2
  accepted : Bool
  deriving DecidableEq

/-- Modelled from the spec (§4.5 EventAdapter, missing `Context.hpp` body of
the private `Context::handlePointerEvent(PointerEvent&, bool)` shared by the
press and release handlers): if the event is not primary, do nothing and
return false; otherwise feed the position multiplied component-wise by
`eventScaling`, and the button transition, into the runtime's input queue,
then set the event accepted and return true exactly if the runtime wants to
capture the mouse.  The result is `(return value, runtime input state
afterwards, event afterwards)`. -/
def handlePointerEvent (c : ContextState) (io : GuiIO)
    (event : PointerEventState) (value : Bool) :
    Bool × GuiIO × PointerEventState :=
  if event.isPrimary = false then (false, io, event)
  else
    let pos : Vec2 := ⟨c._eventScaling.x * event.position.x,
      c._eventScaling.y * event.position.y⟩
    let io' : GuiIO := { io with
      queue := io.queue ++ [GuiInput.mousePos pos,
        GuiInput.mouseButton event.button value] }
    if io'.wantCaptureMouse then (true, io', { event with accepted := true })
    else (false, io', event)

/-- Modelled from the spec (missing `Context.hpp` body of
`Context::handlePointerPressEvent`): the shared pointer logic with a pressed
transition. -/
def handlePointerPressEvent (c : ContextState) (io : GuiIO)
    (event : PointerEventState) : Bool × GuiIO × PointerEventState :=
  handlePointerEvent c io event true

/-- Modelled from the spec (missing `Context.hpp` body of
`Context::handlePointerReleaseEvent`): the shared pointer logic with a
released transition. -/
def handlePointerReleaseEvent (c : ContextState) (io : GuiIO)
    (event : PointerEventState) : Bool × GuiIO × PointerEventState :=
  handlePointerEvent c io event false

/-- Modelled from the spec (§4.5, missing `Context.hpp` body of
`Context::handlePointerMoveEvent`): if the event is not primary, do nothing
and return false; otherwise feed the `eventScaling`-scaled position into the
runtime's input queue, set the event accepted and return true exactly if the
runtime wants to capture the mouse. -/
def handlePointerMoveEvent (c : ContextState) (io : GuiIO)
    (event : PointerMoveEventState) : Bool × GuiIO × PointerMoveEventState :=
  if event.isPrimary = false then (false, io, event)
  else
    let pos : Vec2 := ⟨c._eventScaling.x * event.position.x,
      c._eventScaling.y * event.position.y⟩
    let io' : GuiIO := { io with queue := io.queue ++ [GuiInput.mousePos pos] }
    if io'.wantCaptureMouse then (true, io', { event with accepted := true })
    else (false, io', event)

/-- Modelled from the spec (§4.6 ClipboardBridge, missing `Context.hpp` body
of `Context::connectApplicationClipboard`): if the host application type
exposes clipboard capability, registers the getter/setter callbacks; if not,
does nothing. -/
def connectApplicationClipboard (hasClipboard : Bool) (c : ContextState) :
    ContextState :=
  if hasClipboard then { c with clipboardConnected := true } else c

/-- Modelled from the spec (§4.6): a runtime-initiated paste request routed
through the registered getter callback.  `hostClipboardText` is what the host
clipboard accessor returns at the time of this request.  The getter fetches it,
caches it in the Context's `_lastClipboardText` buffer (so the pointer handed
to the runtime stays valid until the next request) and hands the cached buffer
to the runtime.  Without a connected clipboard the runtime falls back to its
own local implementation, modelled as the empty string.  The result is
`(string delivered to the runtime, Context afterwards)`. -/
def clipboardPasteRequest (c : ContextState) (hostClipboardText : String) :
    String × ContextState :=
  if c.clipboardConnected then
    let c' := { c with _lastClipboardText := hostClipboardText }
    (c'._lastClipboardText, c')
  else ("", c)

/-- The RelayoutEngine's ratio of a quantity to itself is always 1, whether
the component is zero (the explicit fallback) or not (exact division). -/
theorem ratioOr1_self (a : ℚ) : ratioOr1 a a = 1 := by
  unfold ratioOr1
  split
  · rfl
  · exact div_self (by assumption)

/-- C1: every `relayout(S, W, F)` stores `supersamplingRatio = F / W` and
`eventScaling = W / S` component-wise (with the 1-fallback at zero
denominators); in particular, for a window size with positive components and
`F = k·W` with `k > 0`, the stored supersampling ratio is `k`
component-wise. -/
theorem relayout_scaling_ratios (size : Vec2)
    (windowSize framebufferSize : Vec2i) (c : ContextState) (k : ℚ) :
    ((relayout size windowSize framebufferSize c)._supersamplingRatio =
        ⟨ratioOr1 (framebufferSize.x : ℚ) (windowSize.x : ℚ),
          ratioOr1 (framebufferSize.y : ℚ) (windowSize.y : ℚ)⟩ ∧
      (relayout size windowSize framebufferSize c)._eventScaling =
        ⟨ratioOr1 (windowSize.x : ℚ) size.x,
          ratioOr1 (windowSize.y : ℚ) size.y⟩) ∧
    (0 < k → 0 < windowSize.x → 0 < windowSize.y →
      (framebufferSize.x : ℚ) = k * (windowSize.x : ℚ) →
      (framebufferSize.y : ℚ) = k * (windowSize.y : ℚ) →
      (relayout size windowSize framebufferSize c)._supersamplingRatio =
        ⟨k, k⟩) := by
  constructor
  · exact ⟨rfl, rfl⟩
  · intro _ hx hy hfx hfy
    have hx0 : ((windowSize.x : ℚ)) ≠ 0 := by exact_mod_cast hx.ne'
    have hy0 : ((windowSize.y : ℚ)) ≠ 0 := by exact_mod_cast hy.ne'
    simp only [relayout, ratioOr1, hx0, hy0, if_false, hfx, hfy]
    rw [mul_div_assoc, mul_div_assoc, div_self hx0, div_self hy0, mul_one]

/-- Witness for C1: window (800, 600), framebuffer (1600, 1200) = 2·window →
stored supersampling ratio (2, 2). -/
theorem relayout_scaling_ratios_witness :
    (relayout ⟨400, 300⟩ ⟨800, 600⟩ ⟨1600, 1200⟩
        noCreateContext)._supersamplingRatio = ⟨2, 2⟩ :=
  (relayout_scaling_ratios ⟨400, 300⟩ ⟨800, 600⟩ ⟨1600, 1200⟩
    noCreateContext 2).2 (by norm_num) (by norm_num) (by norm_num)
    (by norm_num) (by norm_num)

/-- C2: a zero window-size component makes the corresponding
`supersamplingRatio` component exactly 1, and a zero UI-size component makes
the corresponding `eventScaling` component exactly 1 — the zero denominator is
never divided by. -/
theorem relayout_zero_component_fallback (size : Vec2)
    (windowSize framebufferSize : Vec2i) (c : ContextState) :
    (windowSize.x = 0 →
      (relayout size windowSize framebufferSize c)._supersamplingRatio.x = 1) ∧
    (windowSize.y = 0 →
      (relayout size windowSize framebufferSize c)._supersamplingRatio.y = 1) ∧
    (size.x = 0 →
      (relayout size windowSize framebufferSize c)._eventScaling.x = 1) ∧
    (size.y = 0 →
      (relayout size windowSize framebufferSize c)._eventScaling.y = 1) := by
  refine ⟨fun h => ?_, fun h => ?_, fun h => ?_, fun h => ?_⟩ <;>
    simp [relayout, ratioOr1, h]

/-- Witness for C2: zero window and UI sizes with a nonzero framebuffer give
supersampling ratio and event scaling components of exactly 1. -/
theorem relayout_zero_component_fallback_witness :
    (relayout ⟨0, 0⟩ ⟨0, 0⟩ ⟨123, 456⟩
        noCreateContext)._supersamplingRatio.x = 1 ∧
    (relayout ⟨0, 0⟩ ⟨0, 0⟩ ⟨123, 456⟩
        noCreateContext)._supersamplingRatio.y = 1 ∧
    (relayout ⟨0, 0⟩ ⟨0, 0⟩ ⟨123, 456⟩ noCreateContext)._eventScaling.x = 1 ∧
    (relayout ⟨0, 0⟩ ⟨0, 0⟩ ⟨123, 456⟩ noCreateContext)._eventScaling.y = 1 :=
  ⟨(relayout_zero_component_fallback ⟨0, 0⟩ ⟨0, 0⟩ ⟨123, 456⟩
      noCreateContext).1 rfl,
    (relayout_zero_component_fallback ⟨0, 0⟩ ⟨0, 0⟩ ⟨123, 456⟩
      noCreateContext).2.1 rfl,
    (relayout_zero_component_fallback ⟨0, 0⟩ ⟨0, 0⟩ ⟨123, 456⟩
      noCreateContext).2.2.1 rfl,
    (relayout_zero_component_fallback ⟨0, 0⟩ ⟨0, 0⟩ ⟨123, 456⟩
      noCreateContext).2.2.2 rfl⟩

/-- C3: a second `relayout` whose parameters yield the pixel density already
applied by the first leaves the font-atlas generation counter unchanged, while
a second `relayout` yielding a different pixel density advances it by exactly
one. -/
theorem relayout_rebuild_policy (c : ContextState) (size size' : Vec2)
    (windowSize framebufferSize windowSize' framebufferSize' : Vec2i) :
    (pixelDensityOf windowSize' framebufferSize' =
        pixelDensityOf windowSize framebufferSize →
      (relayout size' windowSize' framebufferSize'
          (relayout size windowSize framebufferSize c)).atlasGeneration =
        (relayout size windowSize framebufferSize c).atlasGeneration) ∧
    (pixelDensityOf windowSize' framebufferSize' ≠
        pixelDensityOf windowSize framebufferSize →
      (relayout size' windowSize' framebufferSize'
          (relayout size windowSize framebufferSize c)).atlasGeneration =
        (relayout size windowSize framebufferSize c).atlasGeneration + 1) := by
  constructor <;> intro h <;> simp [relayout, h]

/-- Witness for C3: after a relayout at window = framebuffer = (800, 600),
repeating it does not advance the atlas generation, while changing the
framebuffer to (1600, 1200) advances it by exactly one. -/
theorem relayout_rebuild_policy_witness :
    (relayout ⟨800, 600⟩ ⟨800, 600⟩ ⟨800, 600⟩
        (relayout ⟨800, 600⟩ ⟨800, 600⟩ ⟨800, 600⟩
          noCreateContext)).atlasGeneration =
      (relayout ⟨800, 600⟩ ⟨800, 600⟩ ⟨800, 600⟩
        noCreateContext).atlasGeneration ∧
    (relayout ⟨800, 600⟩ ⟨800, 600⟩ ⟨1600, 1200⟩
        (relayout ⟨800, 600⟩ ⟨800, 600⟩ ⟨800, 600⟩
          noCreateContext)).atlasGeneration =
      (relayout ⟨800, 600⟩ ⟨800, 600⟩ ⟨800, 600⟩
        noCreateContext).atlasGeneration + 1 :=
  ⟨(relayout_rebuild_policy noCreateContext ⟨800, 600⟩ ⟨800, 600⟩
      ⟨800, 600⟩ ⟨800, 600⟩ ⟨800, 600⟩ ⟨800, 600⟩).1 rfl,
    (relayout_rebuild_policy noCreateContext ⟨800, 600⟩ ⟨800, 600⟩
      ⟨800, 600⟩ ⟨800, 600⟩ ⟨800, 600⟩ ⟨1600, 1200⟩).2
      (by norm_num [pixelDensityOf, ratioOr1])⟩

/-- C4: move-assigning a non-empty Context into another non-empty Context
destroys the target's prior runtime context exactly once, hands the source's
handle to the target and leaves the source empty; self-move destroys nothing
and leaves the instance valid (it still owns its handle). -/
theorem moveAssign_into_nonEmpty (target source : ContextState)
    (h h' : Nat) :
    (target._context = some h → source._context = some h' →
      (moveAssign target source).2.2 = 1 ∧
      context (moveAssign target source).1 = some h' ∧
      context (moveAssign target source).2.1 = none) ∧
    (context (moveAssignSelf target).1 = context target ∧
      (moveAssignSelf target).2 = 0) := by
  refine ⟨fun ht hs => ?_, rfl, rfl⟩
  simp [moveAssign, context, ht, hs]

/-- Witness for C4: moving a freshly constructed instance with handle 7 into
one with handle 5 destroys exactly one context, the target ends up owning
handle 7 and the source ends up empty. -/
theorem moveAssign_into_nonEmpty_witness :
    (moveAssign (construct ⟨800, 600⟩ ⟨800, 600⟩ ⟨800, 600⟩ 5)
        (construct ⟨100, 100⟩ ⟨100, 100⟩ ⟨100, 100⟩ 7)).2.2 = 1 ∧
    context (moveAssign (construct ⟨800, 600⟩ ⟨800, 600⟩ ⟨800, 600⟩ 5)
        (construct ⟨100, 100⟩ ⟨100, 100⟩ ⟨100, 100⟩ 7)).1 = some 7 ∧
    context (moveAssign (construct ⟨800, 600⟩ ⟨800, 600⟩ ⟨800, 600⟩ 5)
        (construct ⟨100, 100⟩ ⟨100, 100⟩ ⟨100, 100⟩ 7)).2.1 = none :=
  (moveAssign_into_nonEmpty (construct ⟨800, 600⟩ ⟨800, 600⟩ ⟨800, 600⟩ 5)
    (construct ⟨100, 100⟩ ⟨100, 100⟩ ⟨100, 100⟩ 7) 5 7).1 rfl rfl

/-- C5: `release()` returns the owned handle and resets the instance to
empty: afterwards `context()` is null, the destructor destroys nothing (the
same as on a NoCreate instance), and a further `release()` yields null —
the released instance behaves like a no-create instance. -/
theorem release_resets_to_empty (c : ContextState) :
    (release c).1 = context c ∧
    context (release c).2 = none ∧
    destructDestroyCount (release c).2 = destructDestroyCount noCreateContext ∧
    (release (release c).2).1 = none ∧
    context (moveConstruct (release c).2).1 = context noCreateContext := by
  refine ⟨rfl, rfl, rfl, rfl, rfl⟩

/-- C6: a non-primary pointer press, release or move event is a no-op: the
handler returns false, the runtime's input state (queue and capture flags) is
unchanged and the event is not marked accepted. -/
theorem nonPrimary_pointer_events_ignored (c : ContextState) (io : GuiIO)
    (event : PointerEventState) (moveEvent : PointerMoveEventState) :
    (event.isPrimary = false →
      handlePointerPressEvent c io event = (false, io, event) ∧
      handlePointerReleaseEvent c io event = (false, io, event)) ∧
    (moveEvent.isPrimary = false →
      handlePointerMoveEvent c io moveEvent = (false, io, moveEvent)) := by
  constructor
  · intro h
    constructor <;>
      simp [handlePointerPressEvent, handlePointerReleaseEvent,
        handlePointerEvent, h]
  · intro h
    simp [handlePointerMoveEvent, h]

/-- Witness for C6: a concrete secondary-touch press, release and move event
against a capture-hungry runtime all come back as untouched no-ops. -/
theorem nonPrimary_pointer_events_ignored_witness :
    (handlePointerPressEvent noCreateContext ⟨[], true⟩
        ⟨false, ⟨10, 20⟩, 0, false⟩ =
      (false, ⟨[], true⟩, ⟨false, ⟨10, 20⟩, 0, false⟩) ∧
     handlePointerReleaseEvent noCreateContext ⟨[], true⟩
        ⟨false, ⟨10, 20⟩, 0, false⟩ =
      (false, ⟨[], true⟩, ⟨false, ⟨10, 20⟩, 0, false⟩)) ∧
    handlePointerMoveEvent noCreateContext ⟨[], true⟩ ⟨false, ⟨10, 20⟩, false⟩ =
      (false, ⟨[], true⟩, ⟨false, ⟨10, 20⟩, false⟩) :=
  ⟨(nonPrimary_pointer_events_ignored noCreateContext ⟨[], true⟩
      ⟨false, ⟨10, 20⟩, 0, false⟩ ⟨false, ⟨10, 20⟩, false⟩).1 rfl,
    (nonPrimary_pointer_events_ignored noCreateContext ⟨[], true⟩
      ⟨false, ⟨10, 20⟩, 0, false⟩ ⟨false, ⟨10, 20⟩, false⟩).2 rfl⟩

/-- C7: every primary pointer event — press, release and move alike — is
delivered to the runtime's input queue at the event position multiplied
component-wise by the stored `eventScaling`. -/
theorem primary_pointer_position_scaled (c : ContextState) (io : GuiIO)
    (event : PointerEventState) (moveEvent : PointerMoveEventState)
    (h : event.isPrimary = true) (hm : moveEvent.isPrimary = true) :
    (handlePointerPressEvent c io event).2.1.queue =
      io.queue ++
        [GuiInput.mousePos ⟨c._eventScaling.x * event.position.x,
          c._eventScaling.y * event.position.y⟩,
         GuiInput.mouseButton event.button true] ∧
    (handlePointerReleaseEvent c io event).2.1.queue =
      io.queue ++
        [GuiInput.mousePos ⟨c._eventScaling.x * event.position.x,
          c._eventScaling.y * event.position.y⟩,
         GuiInput.mouseButton event.button false] ∧
    (handlePointerMoveEvent c io moveEvent).2.1.queue =
      io.queue ++
        [GuiInput.mousePos ⟨c._eventScaling.x * moveEvent.position.x,
          c._eventScaling.y * moveEvent.position.y⟩] := by
  have hne : ¬(event.isPrimary = false) := by simp [h]
  have hnem : ¬(moveEvent.isPrimary = false) := by simp [hm]
  refine ⟨?_, ?_, ?_⟩
  · simp only [handlePointerPressEvent, handlePointerEvent, if_neg hne]
    split <;> rfl
  · simp only [handlePointerReleaseEvent, handlePointerEvent, if_neg hne]
    split <;> rfl
  · simp only [handlePointerMoveEvent, if_neg hnem]
    split <;> rfl

/-- Witness for C7: a primary press, release and move at raw window coordinate
(400, 300) with `eventScaling == (2, 2)` all reach the runtime at UI
coordinate (800, 600). -/
theorem primary_pointer_position_scaled_witness :
    (handlePointerPressEvent
        { noCreateContext with _eventScaling := ⟨2, 2⟩ } ⟨[], false⟩
        ⟨true, ⟨400, 300⟩, 0, false⟩).2.1.queue =
      [GuiInput.mousePos ⟨800, 600⟩, GuiInput.mouseButton 0 true] ∧
    (handlePointerReleaseEvent
        { noCreateContext with _eventScaling := ⟨2, 2⟩ } ⟨[], false⟩
        ⟨true, ⟨400, 300⟩, 0, false⟩).2.1.queue =
      [GuiInput.mousePos ⟨800, 600⟩, GuiInput.mouseButton 0 false] ∧
    (handlePointerMoveEvent
        { noCreateContext with _eventScaling := ⟨2, 2⟩ } ⟨[], false⟩
        ⟨true, ⟨400, 300⟩, false⟩).2.1.queue =
      [GuiInput.mousePos ⟨800, 600⟩] := by
  have := primary_pointer_position_scaled
    { noCreateContext with _eventScaling := ⟨2, 2⟩ } ⟨[], false⟩
    ⟨true, ⟨400, 300⟩, 0, false⟩ ⟨true, ⟨400, 300⟩, false⟩ rfl rfl
  norm_num at this
  exact this

/-- C8: adopting an existing runtime context whose handle is already owned by
another live instance fires the fatal assertion — never a recoverable error
value; with the precondition met, the constructed instance owns the adopted
handle. -/
theorem adoptContext_ownership_assert (handle : Nat) (size : Vec2)
    (windowSize framebufferSize : Vec2i) :
    adoptContext handle true size windowSize framebufferSize =
      ConstructResult.fatalAssert ∧
    adoptContext handle false size windowSize framebufferSize =
      ConstructResult.ok (construct size windowSize framebufferSize handle) ∧
    context (construct size windowSize framebufferSize handle) =
      some handle := by
  refine ⟨rfl, rfl, rfl⟩

/-- C9: after `connectApplicationClipboard`, each runtime-initiated paste
request returns exactly the string the host clipboard accessor supplies at
the time of that request — a second request with a changed host clipboard
returns the new value, not the previously cached one — and the returned
buffer is cached in the Context's `_lastClipboardText`. -/
theorem clipboard_paste_current_value (c : ContextState) (t₁ t₂ : String) :
    (clipboardPasteRequest (connectApplicationClipboard true c) t₁).1 = t₁ ∧
    (clipboardPasteRequest
        (clipboardPasteRequest (connectApplicationClipboard true c) t₁).2
        t₂).1 = t₂ ∧
    (clipboardPasteRequest
        (clipboardPasteRequest (connectApplicationClipboard true c) t₁).2
        t₂).2._lastClipboardText = t₂ := by
  refine ⟨?_, ?_, ?_⟩ <;>
    simp [clipboardPasteRequest, connectApplicationClipboard]

/-- C10: the single-size overloads refine the DPI-aware ones exactly — the
directly stated non-DPI-aware relayout and constructor coincide with the
DPI-aware `relayout` and constructor called with the size passed to all three
parameters, for every size. -/
theorem single_size_overloads_refine (size : Vec2i) (c : ContextState)
    (handle : Nat) :
    relayoutSingle size c = relayout (Vec2i.toVec2 size) size size c ∧
    constructSingle size handle =
      construct (Vec2i.toVec2 size) size size handle := by
  constructor
  · simp [relayoutSingle, relayout, pixelDensityOf, Vec2i.toVec2, ratioOr1_self]
  · simp [constructSingle, construct, relayout, noCreateContext,
      pixelDensityOf, Vec2i.toVec2, ratioOr1_self]

end MagnumImGui
